import Mathlib

/-!
Shallow embedding of the live-scoring engine of the Cricket-Scoring-Api
repository (src/routes/scoring.js, POST /ball handler), together with the
data model of src/models/Match.js and src/models/Ball.js and the
match-start initial state of src/routes/matches.js (PATCH /:id/start).

Modelling conventions:
* JavaScript numbers that the code only ever uses as non-negative integers
  (run counts, ball counts, wicket counts, the match over limit) are `Nat`;
  the `overs` display value, which the code stores as a decimal
  (`floor(balls/6) + (balls%6)/10`), is `Rat`.
* Mongoose documents become structures; `ObjectId` references become `Nat`
  identifiers; enum string fields become inductive types, so that inputs
  which mongoose would reject at save time are unrepresentable, except for
  the `runs <= 6` schema bound on Ball, which is modelled as an explicit
  check (the save happens before any innings mutation in the handler).
* JavaScript array indexing, which yields `undefined` for a negative or
  out-of-range index, is modelled by `jsGet` returning `Option`.
* The handler's early-return error responses become an `Except` error; the
  two distinct 400 responses of the ball handler are the two constructors
  `matchNotFoundOrNotLive` ("Match not found or not live") and
  `currentInningsCompleted` ("Current innings is completed").
-/

namespace CricketScoring

/-- JavaScript array read: `undefined` (here `none`) for a negative or
out-of-range index. -/
def jsGet {α : Type} (l : List α) (i : Int) : Option α :=
  if 0 ≤ i then l[i.toNat]? else none

/-- The `extras` sub-document of an innings (src/models/Match.js). -/
structure Extras where
  wides : Nat
  noBalls : Nat
  byes : Nat
  legByes : Nat
deriving Repr, DecidableEq

/-- One entry of the `innings` array of a Match (src/models/Match.js). -/
structure Innings where
  battingTeam : Nat
  bowlingTeam : Nat
  runs : Nat
  wickets : Nat
  overs : Rat
  balls : Nat
  extras : Extras
  isCompleted : Bool
deriving Repr, DecidableEq

/-- The `status` enum of a Match (src/models/Match.js). -/
inductive MatchStatus where
  | scheduled
  | live
  | completed
  | abandoned
deriving Repr, DecidableEq

/-- The `result.resultType` enum of a Match (src/models/Match.js). -/
inductive ResultType where
  | runs
  | wickets
  | tie
  | noResult
deriving Repr, DecidableEq

/-- The `result` sub-document of a Match; every field is optional in the
schema and unset until the handler assigns it. -/
structure MatchResult where
  winner : Option Nat
  resultType : Option ResultType
  margin : Option String
deriving Repr, DecidableEq

/-- A fresh `result` sub-document with no field assigned. -/
def emptyResult : MatchResult :=
  { winner := none, resultType := none, margin := none }

/-- The Match document fields the scoring engine reads or writes
(src/models/Match.js): `overs` is the format limit, `currentInnings`
the 1-indexed pointer into the `innings` array. -/
structure Match where
  status : MatchStatus
  overs : Nat
  currentInnings : Nat
  innings : List Innings
  result : MatchResult
deriving Repr, DecidableEq

/-- The `wicketType` enum of a Ball (src/models/Ball.js). -/
inductive WicketType where
  | bowled
  | caught
  | lbw
  | stumped
  | runOut
  | hitWicket
  | obstructing
  | handledBall
  | timedOut
deriving Repr, DecidableEq

/-- The request body of POST /api/scoring/ball, after the route-level
validation (bowler, batsman present; runs numeric). -/
structure BallInput where
  bowler : Nat
  batsman : Nat
  nonStriker : Option Nat
  runs : Nat
  isWide : Bool
  isNoBall : Bool
  isBye : Bool
  isLegBye : Bool
  isWicket : Bool
  wicketType : Option WicketType
  fielder : Option Nat
  commentary : Option String
deriving Repr, DecidableEq

/-- The persisted Ball document: the spread of the request body plus the
computed `innings`, `over` and `ball` stamps (src/routes/scoring.js). -/
structure BallEvent where
  innings : Nat
  over : Nat
  ball : Nat
  input : BallInput
deriving Repr, DecidableEq

/-- Ball-index calculation of the handler, guard included:
`totalBalls = balls + (isWide || isNoBall ? 0 : 1)`,
`over = floor(totalBalls/6)`, `ball = totalBalls%6 + 1`, and the
defensive `ball === 7` branch that resets to ball 1 of the next over. -/
def calcBallIndex (balls : Nat) (isWide isNoBall : Bool) : Nat × Nat :=
  let totalBalls := balls + (if isWide || isNoBall then 0 else 1)
  let over := totalBalls / 6
  let ball := totalBalls % 6 + 1
  if ball = 7 then (over + 1, 1) else (over, ball)

/-- The same calculation without the defensive branch, for comparison. -/
def calcBallIndexNoGuard (balls : Nat) (isWide isNoBall : Bool) : Nat × Nat :=
  let totalBalls := balls + (if isWide || isNoBall then 0 else 1)
  (totalBalls / 6, totalBalls % 6 + 1)

/-- The `overs` display value the handler stores after a legal delivery:
`Math.floor(balls/6) + (balls%6 > 0 ? (balls%6)/10 : 0)`. -/
def oversDisplay (balls : Nat) : Rat :=
  (balls / 6 : Nat) + (if balls % 6 > 0 then ((balls % 6 : Nat) : Rat) / 10 else 0)

/-- Run/extras/balls accumulator of the handler, applied to the current
innings (src/routes/scoring.js lines 113-142), in source order: wides,
no-balls, byes, leg-byes, runs, wicket, then balls/overs for a legal
delivery. -/
def applyBall (inn : Innings) (b : BallInput) : Innings :=
  let runsToAdd := b.runs + (if b.isWide then 1 else 0) + (if b.isNoBall then 1 else 0)
  let ex := inn.extras
  let ex := if b.isWide then { ex with wides := ex.wides + 1 } else ex
  let ex := if b.isNoBall then { ex with noBalls := ex.noBalls + 1 } else ex
  let ex := if b.isBye then { ex with byes := ex.byes + b.runs } else ex
  let ex := if b.isLegBye then { ex with legByes := ex.legByes + b.runs } else ex
  let newRuns := inn.runs + runsToAdd
  let newWickets := if b.isWicket then inn.wickets + 1 else inn.wickets
  if !b.isWide && !b.isNoBall then
    { inn with extras := ex, runs := newRuns, wickets := newWickets,
               balls := inn.balls + 1, overs := oversDisplay (inn.balls + 1) }
  else
    { inn with extras := ex, runs := newRuns, wickets := newWickets }

/-- Margin string of a chasing win: `"${10 - secondInnings.wickets} wickets"`. -/
def wicketsMargin (wickets : Nat) : String :=
  toString ((10 : Int) - (wickets : Int)) ++ " wickets"

/-- Margin string of a defending win: `"${firstInnings.runs - secondInnings.runs} runs"`. -/
def runsMargin (firstRuns secondRuns : Nat) : String :=
  toString ((firstRuns : Int) - (secondRuns : Int)) ++ " runs"

/-- Result computation on second-innings completion
(src/routes/scoring.js lines 170-186). Each branch assigns only the fields
the code assigns; in particular the tie branch leaves `winner` untouched. -/
def computeResult (prev : MatchResult) (firstInnings secondInnings : Innings) : MatchResult :=
  if secondInnings.runs > firstInnings.runs then
    { prev with winner := some secondInnings.battingTeam,
                resultType := some ResultType.wickets,
                margin := some (wicketsMargin secondInnings.wickets) }
  else if firstInnings.runs > secondInnings.runs then
    { prev with winner := some firstInnings.battingTeam,
                resultType := some ResultType.runs,
                margin := some (runsMargin firstInnings.runs secondInnings.runs) }
  else
    { prev with resultType := some ResultType.tie,
                margin := some "Match tied" }

/-- The second innings the handler pushes when the first completes: roles
swapped from the (updated) first innings, every counter zero. -/
def freshSecondInnings (firstInnings : Innings) : Innings :=
  { battingTeam := firstInnings.bowlingTeam
    bowlingTeam := firstInnings.battingTeam
    runs := 0
    wickets := 0
    overs := 0
    balls := 0
    extras := { wides := 0, noBalls := 0, byes := 0, legByes := 0 }
    isCompleted := false }

/-- Error responses of the ball handler that precede any state change:
the 400 "Match not found or not live" response, the 400 "Current innings
is completed" response, and the 500 response produced when the Ball
document fails its schema validation (runs above 6). `internalError`
stands for the 500 path reached when `innings[0]`/`innings[1]` is
`undefined` in the completion branch; it is unreachable. -/
inductive ScoringError where
  | matchNotFoundOrNotLive
  | currentInningsCompleted
  | ballValidationError
  | internalError
deriving Repr, DecidableEq

/-- Completion check and state transition after the accumulator update
(src/routes/scoring.js lines 144-187): completes the innings when
`floor(balls/6) >= match.overs` or `wickets >= 10`; on first-innings
completion pushes the swapped second innings and moves `currentInnings`
to 2; on later-innings completion computes the result from `innings[0]`
and `innings[1]` and marks the match completed. -/
def finishStep (m : Match) (updatedInnings : Innings) : Except ScoringError Match :=
  let idx := m.currentInnings - 1
  if updatedInnings.balls / 6 ≥ m.overs ∨ updatedInnings.wickets ≥ 10 then
    let done := { updatedInnings with isCompleted := true }
    let inns := m.innings.set idx done
    if m.currentInnings = 1 then
      Except.ok { m with currentInnings := 2,
                         innings := inns ++ [freshSecondInnings done] }
    else
      match jsGet inns 0, jsGet inns 1 with
      | some fi, some si =>
          Except.ok { m with status := MatchStatus.completed,
                             innings := inns,
                             result := computeResult m.result fi si }
      | _, _ => Except.error ScoringError.internalError
  else
    Except.ok { m with innings := m.innings.set idx updatedInnings }

/-- The ball-recording handler (src/routes/scoring.js POST /ball) on an
already-looked-up match: guards, ball-index computation, Ball document,
accumulator, completion check. Returns the updated match and the persisted
ball event, or the error response. -/
def recordBall (m : Match) (input : BallInput) : Except ScoringError (Match × BallEvent) :=
  if m.status ≠ MatchStatus.live then
    Except.error ScoringError.matchNotFoundOrNotLive
  else
    match jsGet m.innings ((m.currentInnings : Int) - 1) with
    | none => Except.error ScoringError.currentInningsCompleted
    | some inn =>
      if inn.isCompleted then
        Except.error ScoringError.currentInningsCompleted
      else if input.runs > 6 then
        Except.error ScoringError.ballValidationError
      else
        let ob := calcBallIndex inn.balls input.isWide input.isNoBall
        let ev : BallEvent :=
          { innings := m.currentInnings, over := ob.1, ball := ob.2, input := input }
        (finishStep m (applyBall inn input)).map (fun m2 => (m2, ev))

/-- The handler including the `Match.findById` lookup: a missing match and
a non-live match produce the same 400 response. -/
def recordBallDb (db : Option Match) (input : BallInput) : Except ScoringError (Match × BallEvent) :=
  match db with
  | none => Except.error ScoringError.matchNotFoundOrNotLive
  | some m => recordBall m input

/-- Persistent state touched by the handler: the match document and the
append-only ball log. -/
structure Store where
  matchDoc : Option Match
  balls : List BallEvent
deriving Repr, DecidableEq

/-- One POST /ball request against the store: on any of the handler's
error responses the store is unchanged (every error return precedes the
Ball insert and the Match save in the source). -/
def postBall (st : Store) (input : BallInput) : Store × Except ScoringError BallEvent :=
  match recordBallDb st.matchDoc input with
  | Except.error e => (st, Except.error e)
  | Except.ok (m2, ev) => ({ matchDoc := some m2, balls := st.balls ++ [ev] }, Except.ok ev)

/-- The innings object the match-start handler creates: all counters zero,
not completed (src/routes/matches.js). -/
def initialInnings (battingTeam bowlingTeam : Nat) : Innings :=
  { battingTeam := battingTeam
    bowlingTeam := bowlingTeam
    runs := 0
    wickets := 0
    overs := 0
    balls := 0
    extras := { wides := 0, noBalls := 0, byes := 0, legByes := 0 }
    isCompleted := false }

/-- The state PATCH /api/matches/:id/start leaves a match in
(src/routes/matches.js): status live, one fresh innings, `currentInnings`
at its schema default 1, no result. -/
def initialMatch (battingTeam bowlingTeam overs : Nat) : Match :=
  { status := MatchStatus.live
    overs := overs
    currentInnings := 1
    innings := [initialInnings battingTeam bowlingTeam]
    result := emptyResult }

/-- Match states reachable from a started match through successful
ball-recording calls. -/
inductive Reachable : Match → Prop
  | start (battingTeam bowlingTeam overs : Nat) :
      Reachable (initialMatch battingTeam bowlingTeam overs)
  | step {m m2 : Match} {input : BallInput} {ev : BallEvent} :
      Reachable m → recordBall m input = Except.ok (m2, ev) → Reachable m2

/-- Sequential ball recording, used to exhibit concrete reachable states. -/
def runBalls (m : Match) (l : List BallInput) : Except ScoringError Match :=
  match l with
  | [] => Except.ok m
  | b :: rest =>
    match recordBall m b with
    | Except.error e => Except.error e
    | Except.ok (m2, _) => runBalls m2 rest

/-- Per-innings invariant: at most ten wickets, and an innings that is not
yet completed has fewer than ten (the completion check fires on the ball
that brings up the tenth). -/
def InningsInv (inn : Innings) : Prop :=
  inn.wickets ≤ 10 ∧ (inn.isCompleted = false → inn.wickets < 10)

/-- Match invariant preserved by ball recording: every innings satisfies
`InningsInv`, and a live match has no result fields assigned yet. -/
def MatchInv (m : Match) : Prop :=
  (∀ inn ∈ m.innings, InningsInv inn) ∧
    (m.status = MatchStatus.live → m.result = emptyResult)

/-- A request body with the given runs and flags, and fixed player ids. -/
def mkBall (runs : Nat) (isWide isNoBall isBye isLegBye isWicket : Bool) : BallInput :=
  { bowler := 1
    batsman := 2
    nonStriker := none
    runs := runs
    isWide := isWide
    isNoBall := isNoBall
    isBye := isBye
    isLegBye := isLegBye
    isWicket := isWicket
    wicketType := none
    fielder := none
    commentary := none }

/-- A legal delivery scoring no runs. -/
def ballLegal0 : BallInput := mkBall 0 false false false false false

/-- A legal delivery scoring one run. -/
def ballLegal1 : BallInput := mkBall 1 false false false false false

/-- A bye delivery worth two runs. -/
def ballBye2 : BallInput := mkBall 2 false false true false false

/-- A wide on which one additional run was taken. -/
def ballWide1 : BallInput := mkBall 1 true false false false false

/-- A wide on which five runs were taken. -/
def ballWide5 : BallInput := mkBall 5 true false false false false

/-- A wide with no further runs. -/
def ballWide0 : BallInput := mkBall 0 true false false false false

/-- A wide worth six further runs on which a wicket (run-out) fell. -/
def ballWideWicket6 : BallInput := mkBall 6 true false false false true

/-- A legal delivery hit for six. -/
def ballLegal6 : BallInput := mkBall 6 false false false false false

/-- First innings of a one-ball 0-over match after its only ball: one run,
one legal ball, completed. -/
def inn1Done : Innings :=
  { battingTeam := 7, bowlingTeam := 9, runs := 1, wickets := 0,
    overs := oversDisplay 1, balls := 1,
    extras := { wides := 0, noBalls := 0, byes := 0, legByes := 0 },
    isCompleted := true }

/-- A 0-over match between teams 7 and 9 after one recorded ball: first
innings completed, fresh second innings, still live. -/
def m1over0 : Match :=
  { status := MatchStatus.live, overs := 0, currentInnings := 2,
    innings := [inn1Done, initialInnings 9 7], result := emptyResult }

/-- The completed second innings of the 0-over match: no run off one ball. -/
def inn2Done0 : Innings :=
  { battingTeam := 9, bowlingTeam := 7, runs := 0, wickets := 0,
    overs := oversDisplay 1, balls := 1,
    extras := { wides := 0, noBalls := 0, byes := 0, legByes := 0 },
    isCompleted := true }

/-- The 0-over match after both its balls: completed, team 7 wins by 1 run. -/
def m2over0 : Match :=
  { status := MatchStatus.completed, overs := 0, currentInnings := 2,
    innings := [inn1Done, inn2Done0],
    result := { winner := some 7, resultType := some ResultType.runs,
                margin := some (runsMargin 1 0) } }

/-- Completed first innings on 100 for the chase scenario. -/
def c3FirstInnings : Innings :=
  { battingTeam := 7, bowlingTeam := 9, runs := 100, wickets := 4,
    overs := oversDisplay 120, balls := 120,
    extras := { wides := 0, noBalls := 0, byes := 0, legByes := 0 },
    isCompleted := true }

/-- Second innings on 95 for 3 after 5 overs, chasing 100 in 20 overs. -/
def c3SecondBefore : Innings :=
  { battingTeam := 9, bowlingTeam := 7, runs := 95, wickets := 3,
    overs := oversDisplay 30, balls := 30,
    extras := { wides := 0, noBalls := 0, byes := 0, legByes := 0 },
    isCompleted := false }

/-- A 20-over match in mid-chase: first innings closed on 100, second
innings 95 for 3 after 5 overs. -/
def c3Match : Match :=
  { status := MatchStatus.live, overs := 20, currentInnings := 2,
    innings := [c3FirstInnings, c3SecondBefore], result := emptyResult }

/-- The chase innings just after passing the target: 101 for 3 off 31 balls,
not completed. -/
def c3SecondAfter : Innings :=
  { battingTeam := 9, bowlingTeam := 7, runs := 101, wickets := 3,
    overs := oversDisplay 31, balls := 31,
    extras := { wides := 0, noBalls := 0, byes := 0, legByes := 0 },
    isCompleted := false }

/-- The chase match right after the six that passed the target. -/
def c3Post : Match :=
  { status := MatchStatus.live, overs := 20, currentInnings := 2,
    innings := [c3FirstInnings, c3SecondAfter], result := emptyResult }

/-- Ball sequence driving a 1-over match to: first innings 100 all out,
second innings 94 for 9 with every delivery a wide. -/
def c3BallList : List BallInput :=
  List.replicate 5 ballWide5 ++ List.replicate 10 ballWideWicket6 ++
    List.replicate 5 ballWide5 ++ [ballWide0] ++ List.replicate 9 ballWideWicket6

/-- First innings reached by `c3BallList`: 100 all out off wides alone. -/
def c3PreFirst : Innings :=
  { battingTeam := 7, bowlingTeam := 9, runs := 100, wickets := 10,
    overs := 0, balls := 0,
    extras := { wides := 15, noBalls := 0, byes := 0, legByes := 0 },
    isCompleted := true }

/-- Second innings reached by `c3BallList`: 94 for 9 off wides alone. -/
def c3PreSecond : Innings :=
  { battingTeam := 9, bowlingTeam := 7, runs := 94, wickets := 9,
    overs := 0, balls := 0,
    extras := { wides := 15, noBalls := 0, byes := 0, legByes := 0 },
    isCompleted := false }

/-- The reachable match state one ball short of finishing the chase. -/
def c3Pre : Match :=
  { status := MatchStatus.live, overs := 1, currentInnings := 2,
    innings := [c3PreFirst, c3PreSecond], result := emptyResult }

/-- The chase innings after the final wide-and-run-out: 101 all out. -/
def c3DoneSecond : Innings :=
  { battingTeam := 9, bowlingTeam := 7, runs := 101, wickets := 10,
    overs := 0, balls := 0,
    extras := { wides := 16, noBalls := 0, byes := 0, legByes := 0 },
    isCompleted := true }

/-- The finished chase match: team 9 wins, margin computed from the ten
wickets down at completion. -/
def c3Done : Match :=
  { status := MatchStatus.completed, overs := 1, currentInnings := 2,
    innings := [c3PreFirst, c3DoneSecond],
    result := { winner := some 9, resultType := some ResultType.wickets,
                margin := some (wicketsMargin 10) } }

/-- A match that was created but never started. -/
def scheduledMatch : Match :=
  { status := MatchStatus.scheduled, overs := 20, currentInnings := 1,
    innings := [initialInnings 7 9], result := emptyResult }

section Lemmas

lemma getElem?_some_lt {α : Type} {l : List α} {i : Nat} {x : α}
    (h : l[i]? = some x) : i < l.length := by
  by_contra hc
  rw [List.getElem?_eq_none (by omega)] at h
  cases h

lemma jsGet_nonneg {α : Type} {l : List α} {i : Int} (h : 0 ≤ i) :
    jsGet l i = l[i.toNat]? := by
  unfold jsGet
  rw [if_pos h]

lemma jsGet_pred {α : Type} (l : List α) (ci : Nat) (h : 1 ≤ ci) :
    jsGet l ((ci : Int) - 1) = l[ci - 1]? := by
  rw [jsGet_nonneg (by omega)]
  congr 1
  omega

lemma jsGet_some_pos {α : Type} {l : List α} {i : Int} {x : α}
    (h : jsGet l i = some x) : 0 ≤ i := by
  by_contra hc
  unfold jsGet at h
  rw [if_neg hc] at h
  cases h

lemma runBalls_reachable {l : List BallInput} {m m2 : Match}
    (hr : Reachable m) (h : runBalls m l = Except.ok m2) : Reachable m2 := by
  induction l generalizing m with
  | nil =>
    unfold runBalls at h
    cases h
    exact hr
  | cons b rest ih =>
    unfold runBalls at h
    rcases hrec : recordBall m b with e | p
    · rw [hrec] at h
      cases h
    · rw [hrec] at h
      exact ih (Reachable.step hr (by rw [hrec])) h

lemma calcBallIndex_eq_noGuard (b : Nat) (w nb : Bool) :
    calcBallIndex b w nb = calcBallIndexNoGuard b w nb := by
  unfold calcBallIndex calcBallIndexNoGuard
  have h : (b + (if w || nb then 0 else 1)) % 6 < 6 := Nat.mod_lt _ (by omega)
  rw [if_neg (by omega)]

lemma oversDisplay_eq_formula (b : Nat) :
    oversDisplay b = ((b / 6 : Nat) : Rat) + ((b % 6 : Nat) : Rat) / 10 := by
  unfold oversDisplay
  split_ifs with h
  · rfl
  · have h0 : b % 6 = 0 := by omega
    rw [h0]
    norm_num

lemma applyBall_battingTeam (inn : Innings) (b : BallInput) :
    (applyBall inn b).battingTeam = inn.battingTeam := by
  cases hw : b.isWide <;> cases hn : b.isNoBall <;> simp [applyBall, hw, hn]

lemma applyBall_bowlingTeam (inn : Innings) (b : BallInput) :
    (applyBall inn b).bowlingTeam = inn.bowlingTeam := by
  cases hw : b.isWide <;> cases hn : b.isNoBall <;> simp [applyBall, hw, hn]

lemma applyBall_isCompleted (inn : Innings) (b : BallInput) :
    (applyBall inn b).isCompleted = inn.isCompleted := by
  cases hw : b.isWide <;> cases hn : b.isNoBall <;> simp [applyBall, hw, hn]

lemma applyBall_runs (inn : Innings) (b : BallInput) :
    (applyBall inn b).runs =
      inn.runs + b.runs + (if b.isWide then 1 else 0) + (if b.isNoBall then 1 else 0) := by
  cases hw : b.isWide <;> cases hn : b.isNoBall <;>
    simp [applyBall, hw, hn] <;> omega

lemma applyBall_wickets (inn : Innings) (b : BallInput) :
    (applyBall inn b).wickets = inn.wickets + (if b.isWicket then 1 else 0) := by
  cases hw : b.isWide <;> cases hn : b.isNoBall <;> cases hk : b.isWicket <;>
    simp [applyBall, hw, hn, hk]

lemma applyBall_extras (inn : Innings) (b : BallInput) :
    (applyBall inn b).extras =
      { wides := inn.extras.wides + (if b.isWide then 1 else 0)
        noBalls := inn.extras.noBalls + (if b.isNoBall then 1 else 0)
        byes := inn.extras.byes + (if b.isBye then b.runs else 0)
        legByes := inn.extras.legByes + (if b.isLegBye then b.runs else 0) } := by
  unfold applyBall
  cases hw : b.isWide <;> cases hn : b.isNoBall <;> cases hb : b.isBye <;>
    cases hl : b.isLegBye <;> simp [hw, hn, hb, hl]

lemma applyBall_balls (inn : Innings) (b : BallInput) :
    (applyBall inn b).balls =
      if b.isWide || b.isNoBall then inn.balls else inn.balls + 1 := by
  unfold applyBall
  cases hw : b.isWide <;> cases hn : b.isNoBall <;> simp [hw, hn]

lemma applyBall_overs (inn : Innings) (b : BallInput) :
    (applyBall inn b).overs =
      if b.isWide || b.isNoBall then inn.overs else oversDisplay (inn.balls + 1) := by
  unfold applyBall
  cases hw : b.isWide <;> cases hn : b.isNoBall <;> simp [hw, hn]

lemma finishStep_not_complete {m : Match} {inn2 : Innings}
    (h : ¬ (inn2.balls / 6 ≥ m.overs ∨ inn2.wickets ≥ 10)) :
    finishStep m inn2 =
      Except.ok { m with innings := m.innings.set (m.currentInnings - 1) inn2 } := by
  simp only [finishStep]
  rw [if_neg h]

lemma finishStep_complete_first {m : Match} {inn2 : Innings}
    (hc : inn2.balls / 6 ≥ m.overs ∨ inn2.wickets ≥ 10) (h1 : m.currentInnings = 1) :
    finishStep m inn2 =
      Except.ok { m with currentInnings := 2,
                         innings := m.innings.set 0 { inn2 with isCompleted := true }
                                    ++ [freshSecondInnings { inn2 with isCompleted := true }] } := by
  simp only [finishStep, h1]
  rw [if_pos hc]
  simp

lemma finishStep_complete_later {m : Match} {inn2 fi si : Innings}
    (hc : inn2.balls / 6 ≥ m.overs ∨ inn2.wickets ≥ 10) (h1 : m.currentInnings ≠ 1)
    (hfi : jsGet (m.innings.set (m.currentInnings - 1) { inn2 with isCompleted := true }) 0
             = some fi)
    (hsi : jsGet (m.innings.set (m.currentInnings - 1) { inn2 with isCompleted := true }) 1
             = some si) :
    finishStep m inn2 =
      Except.ok { m with status := MatchStatus.completed,
                         innings := m.innings.set (m.currentInnings - 1)
                                      { inn2 with isCompleted := true },
                         result := computeResult m.result fi si } := by
  simp only [finishStep]
  rw [if_pos hc, if_neg h1, hfi, hsi]

lemma recordBall_ok_elim {m : Match} {input : BallInput} {m2 : Match} {ev : BallEvent}
    (h : recordBall m input = Except.ok (m2, ev)) :
    m.status = MatchStatus.live ∧
    ∃ inn, jsGet m.innings ((m.currentInnings : Int) - 1) = some inn ∧
      inn.isCompleted = false ∧ input.runs ≤ 6 ∧
      ev = { innings := m.currentInnings,
             over := (calcBallIndex inn.balls input.isWide input.isNoBall).1,
             ball := (calcBallIndex inn.balls input.isWide input.isNoBall).2,
             input := input } ∧
      finishStep m (applyBall inn input) = Except.ok m2 := by
  unfold recordBall at h
  by_cases hs : m.status = MatchStatus.live
  · rw [if_neg (by simp [hs])] at h
    refine ⟨hs, ?_⟩
    rcases hj : jsGet m.innings ((m.currentInnings : Int) - 1) with _ | inn
    · rw [hj] at h
      cases h
    · rw [hj] at h
      dsimp only at h
      by_cases hcmp : inn.isCompleted = true
      · rw [if_pos hcmp] at h
        cases h
      · rw [if_neg hcmp] at h
        by_cases hruns : input.runs > 6
        · rw [if_pos hruns] at h
          cases h
        · rw [if_neg hruns] at h
          rcases hf : finishStep m (applyBall inn input) with e | mm
          · rw [hf] at h
            cases h
          · rw [hf] at h
            simp only [Except.map] at h
            cases h
            exact ⟨inn, rfl, by simpa using hcmp, by omega, rfl, hf⟩
  · rw [if_pos (by simp [hs])] at h
    cases h

lemma recordBall_ok_index {m : Match} {input : BallInput} {m2 : Match} {ev : BallEvent}
    (h : recordBall m input = Except.ok (m2, ev)) : 1 ≤ m.currentInnings := by
  obtain ⟨-, inn, hj, -⟩ := recordBall_ok_elim h
  have := jsGet_some_pos hj
  omega

lemma finishStep_ok_cases {m : Match} {inn2 : Innings} {m2 : Match}
    (h : finishStep m inn2 = Except.ok m2) :
    (¬ (inn2.balls / 6 ≥ m.overs ∨ inn2.wickets ≥ 10) ∧
       m2 = { m with innings := m.innings.set (m.currentInnings - 1) inn2 }) ∨
    ((inn2.balls / 6 ≥ m.overs ∨ inn2.wickets ≥ 10) ∧ m.currentInnings = 1 ∧
       m2 = { m with currentInnings := 2,
                     innings := m.innings.set (m.currentInnings - 1)
                                  { inn2 with isCompleted := true }
                                ++ [freshSecondInnings { inn2 with isCompleted := true }] }) ∨
    ((inn2.balls / 6 ≥ m.overs ∨ inn2.wickets ≥ 10) ∧ m.currentInnings ≠ 1 ∧
       ∃ fi si,
         jsGet (m.innings.set (m.currentInnings - 1) { inn2 with isCompleted := true }) 0
           = some fi ∧
         jsGet (m.innings.set (m.currentInnings - 1) { inn2 with isCompleted := true }) 1
           = some si ∧
         m2 = { m with status := MatchStatus.completed,
                       innings := m.innings.set (m.currentInnings - 1)
                                    { inn2 with isCompleted := true },
                       result := computeResult m.result fi si }) := by
  simp only [finishStep] at h
  by_cases hc : inn2.balls / 6 ≥ m.overs ∨ inn2.wickets ≥ 10
  · rw [if_pos hc] at h
    by_cases h1 : m.currentInnings = 1
    · rw [if_pos h1] at h
      cases h
      right
      left
      exact ⟨hc, h1, rfl⟩
    · rw [if_neg h1] at h
      rcases hfi : jsGet (m.innings.set (m.currentInnings - 1)
          { inn2 with isCompleted := true }) 0 with _ | fi
      · rw [hfi] at h
        dsimp only at h
        cases h
      · rw [hfi] at h
        rcases hsi : jsGet (m.innings.set (m.currentInnings - 1)
            { inn2 with isCompleted := true }) 1 with _ | si
        · rw [hsi] at h
          dsimp only at h
          cases h
        · rw [hsi] at h
          dsimp only at h
          cases h
          right
          right
          exact ⟨hc, h1, fi, si, rfl, rfl, rfl⟩
  · rw [if_neg hc] at h
    cases h
    left
    exact ⟨hc, rfl⟩

lemma recordBall_frame_other {m : Match} {input : BallInput} {m2 : Match} {ev : BallEvent}
    {i : Nat} (h : recordBall m input = Except.ok (m2, ev))
    (hi : i ≠ m.currentInnings - 1) (hlen : i < m.innings.length) :
    m2.innings[i]? = m.innings[i]? := by
  obtain ⟨hs, inn, hj, hcmp, hruns, hev, hf⟩ := recordBall_ok_elim h
  rcases finishStep_ok_cases hf with ⟨-, rfl⟩ | ⟨-, h1, rfl⟩ | ⟨-, h1, fi, si, -, -, rfl⟩
  · exact List.getElem?_set_ne (fun hx => hi hx.symm)
  · rw [List.getElem?_append_left (by rw [List.length_set]; exact hlen)]
    exact List.getElem?_set_ne (fun hx => hi hx.symm)
  · exact List.getElem?_set_ne (fun hx => hi hx.symm)

lemma recordBall_length_pos {m : Match} {input : BallInput} {m2 : Match} {ev : BallEvent}
    (h : recordBall m input = Except.ok (m2, ev)) :
    m.currentInnings - 1 < m.innings.length := by
  obtain ⟨-, inn, hj, -⟩ := recordBall_ok_elim h
  have h1 : 1 ≤ m.currentInnings := by
    have := jsGet_some_pos hj
    omega
  rw [jsGet_pred _ _ h1] at hj
  exact getElem?_some_lt hj

lemma recordBall_current {m : Match} {input : BallInput} {m2 : Match} {ev : BallEvent}
    {inn : Innings} (h : recordBall m input = Except.ok (m2, ev))
    (hj : jsGet m.innings ((m.currentInnings : Int) - 1) = some inn) :
    m2.innings[m.currentInnings - 1]? =
      some (if (applyBall inn input).balls / 6 ≥ m.overs ∨ (applyBall inn input).wickets ≥ 10
            then { applyBall inn input with isCompleted := true }
            else applyBall inn input) := by
  have hlen : m.currentInnings - 1 < m.innings.length := recordBall_length_pos h
  obtain ⟨hs, inn0, hj0, hcmp, hruns, hev, hf⟩ := recordBall_ok_elim h
  rw [hj0] at hj
  cases hj
  rcases finishStep_ok_cases hf with ⟨hc, rfl⟩ | ⟨hc, h1, rfl⟩ | ⟨hc, h1, fi, si, -, -, rfl⟩
  · rw [if_neg hc]
    exact List.getElem?_set_eq_of_lt _ hlen
  · rw [if_pos hc]
    rw [List.getElem?_append_left (by rw [List.length_set]; exact hlen)]
    exact List.getElem?_set_eq_of_lt _ hlen
  · rw [if_pos hc]
    exact List.getElem?_set_eq_of_lt _ hlen

lemma recordBall_length {m : Match} {input : BallInput} {m2 : Match} {ev : BallEvent}
    (h : recordBall m input = Except.ok (m2, ev)) :
    m2.innings.length = m.innings.length ∨
      (m2.innings.length = m.innings.length + 1 ∧ m.currentInnings = 1) := by
  obtain ⟨hs, inn, hj, hcmp, hruns, hev, hf⟩ := recordBall_ok_elim h
  rcases finishStep_ok_cases hf with ⟨-, rfl⟩ | ⟨-, h1, rfl⟩ | ⟨-, h1, fi, si, -, -, rfl⟩
  · left
    exact List.length_set ..
  · right
    constructor
    · simp [List.length_set]
    · exact h1
  · left
    exact List.length_set ..

lemma recordBall_current_fields {m : Match} {input : BallInput} {m2 : Match} {ev : BallEvent}
    {inn inn2 : Innings} (h : recordBall m input = Except.ok (m2, ev))
    (hj : jsGet m.innings ((m.currentInnings : Int) - 1) = some inn)
    (hinn2 : m2.innings[m.currentInnings - 1]? = some inn2) :
    inn2.runs = (applyBall inn input).runs ∧
    inn2.wickets = (applyBall inn input).wickets ∧
    inn2.balls = (applyBall inn input).balls ∧
    inn2.overs = (applyBall inn input).overs ∧
    inn2.extras = (applyBall inn input).extras ∧
    inn2.battingTeam = inn.battingTeam ∧
    inn2.bowlingTeam = inn.bowlingTeam := by
  have hcur := recordBall_current h hj
  rw [hinn2] at hcur
  have heq := Option.some.inj hcur
  by_cases hc : (applyBall inn input).balls / 6 ≥ m.overs ∨ (applyBall inn input).wickets ≥ 10
  · rw [if_pos hc] at heq
    subst heq
    exact ⟨rfl, rfl, rfl, rfl, rfl, applyBall_battingTeam .., applyBall_bowlingTeam ..⟩
  · rw [if_neg hc] at heq
    subst heq
    exact ⟨rfl, rfl, rfl, rfl, rfl, applyBall_battingTeam .., applyBall_bowlingTeam ..⟩

end Lemmas

section InvariantLemmas

lemma matchInv_initial (battingTeam bowlingTeam overs : Nat) :
    MatchInv (initialMatch battingTeam bowlingTeam overs) := by
  constructor
  · intro inn hinn
    simp only [initialMatch, List.mem_singleton] at hinn
    subst hinn
    exact ⟨by simp [initialInnings], fun _ => by simp [initialInnings]⟩
  · intro _
    rfl

lemma matchInv_step {m : Match} {input : BallInput} {m2 : Match} {ev : BallEvent}
    (hinv : MatchInv m) (h : recordBall m input = Except.ok (m2, ev)) :
    MatchInv m2 := by
  obtain ⟨hs, inn, hj, hcmp, hruns, hev, hf⟩ := recordBall_ok_elim h
  have hmem : inn ∈ m.innings := by
    have h1 : 1 ≤ m.currentInnings := by
      have := jsGet_some_pos hj
      omega
    rw [jsGet_pred _ _ h1] at hj
    exact List.getElem?_mem hj
  have hw : inn.wickets < 10 := (hinv.1 inn hmem).2 hcmp
  have hw2 : (applyBall inn input).wickets ≤ 10 := by
    rw [applyBall_wickets]
    split <;> omega
  rcases finishStep_ok_cases hf with ⟨hc, rfl⟩ | ⟨hc, h1, rfl⟩ | ⟨hc, h1, fi, si, -, -, rfl⟩
  · constructor
    · intro x hx
      rcases List.mem_or_eq_of_mem_set hx with hx | rfl
      · exact hinv.1 x hx
      · refine ⟨hw2, fun _ => ?_⟩
        omega
    · intro hlive
      exact hinv.2 hs
  · constructor
    · intro x hx
      rcases List.mem_append.mp hx with hx | hx
      · rcases List.mem_or_eq_of_mem_set hx with hx | rfl
        · exact hinv.1 x hx
        · exact ⟨hw2, fun hfalse => by cases hfalse⟩
      · rcases List.mem_singleton.mp hx with rfl
        exact ⟨by simp [freshSecondInnings], fun _ => by simp [freshSecondInnings]⟩
    · intro hlive
      exact hinv.2 hs
  · constructor
    · intro x hx
      rcases List.mem_or_eq_of_mem_set hx with hx | rfl
      · exact hinv.1 x hx
      · exact ⟨hw2, fun hfalse => by cases hfalse⟩
    · intro hlive
      cases hlive

lemma reachable_matchInv {m : Match} (hr : Reachable m) : MatchInv m := by
  induction hr with
  | start battingTeam bowlingTeam overs => exact matchInv_initial battingTeam bowlingTeam overs
  | step hr hstep ih => exact matchInv_step ih hstep

lemma recordBall_completed_result {m : Match} {input : BallInput} {m2 : Match}
    {ev : BallEvent} {fi si : Innings}
    (hr : Reachable m) (h : recordBall m input = Except.ok (m2, ev))
    (hst : m2.status = MatchStatus.completed)
    (hfi : m2.innings[0]? = some fi) (hsi : m2.innings[1]? = some si) :
    m2.result = computeResult emptyResult fi si := by
  obtain ⟨hs, inn, hj, hcmp, hrb, hev, hf⟩ := recordBall_ok_elim h
  have hres : m.result = emptyResult := (reachable_matchInv hr).2 hs
  rcases finishStep_ok_cases hf with ⟨-, rfl⟩ | ⟨-, -, rfl⟩ | ⟨-, -, fi0, si0, hfi0, hsi0, rfl⟩
  · rw [hs] at hst
    cases hst
  · rw [hs] at hst
    cases hst
  · rw [jsGet_nonneg (by omega)] at hfi0 hsi0
    rw [show ((0 : Int).toNat) = 0 from rfl] at hfi0
    rw [show ((1 : Int).toNat) = 1 from rfl] at hsi0
    rw [hfi0] at hfi
    rw [hsi0] at hsi
    cases Option.some.inj hfi
    cases Option.some.inj hsi
    rw [hres]

end InvariantLemmas

/-- C6: for every innings state with balls count `b`, the ball-index
calculator stamps the new ball event with `over = floor(t/6)` and
`ballInOver = (t%6)+1`, where the prospective total `t` is `b+1` for a
legal delivery and `b` for a wide or no-ball; the computation is total. -/
theorem c6_ball_index_stamp :
    (∀ (b : Nat) (w nb : Bool),
        calcBallIndex b w nb =
          ((b + (if w || nb then 0 else 1)) / 6,
           (b + (if w || nb then 0 else 1)) % 6 + 1)) ∧
    (∀ (m : Match) (input : BallInput) (inn : Innings) (m2 : Match) (ev : BallEvent),
        jsGet m.innings ((m.currentInnings : Int) - 1) = some inn →
        recordBall m input = Except.ok (m2, ev) →
        ev.over = (inn.balls + (if input.isWide || input.isNoBall then 0 else 1)) / 6 ∧
        ev.ball = (inn.balls + (if input.isWide || input.isNoBall then 0 else 1)) % 6 + 1) := by
  have hcalc : ∀ (b : Nat) (w nb : Bool),
      calcBallIndex b w nb =
        ((b + (if w || nb then 0 else 1)) / 6,
         (b + (if w || nb then 0 else 1)) % 6 + 1) := by
    intro b w nb
    rw [calcBallIndex_eq_noGuard]
    rfl
  refine ⟨hcalc, ?_⟩
  intro m input inn m2 ev hj h
  obtain ⟨-, inn0, hj0, -, -, hev, -⟩ := recordBall_ok_elim h
  rw [hj0] at hj
  cases hj
  subst hev
  rw [hcalc]
  exact ⟨rfl, rfl⟩

/-- Witness for C6 at a concrete recorded ball: the first legal delivery of
a fresh innings is stamped over 0, ball 2. -/
theorem c6_ball_index_stamp_witness :
    ({ innings := 1, over := 0, ball := 2, input := ballLegal0 } : BallEvent).over = 0 ∧
    ({ innings := 1, over := 0, ball := 2, input := ballLegal0 } : BallEvent).ball = 2 :=
  c6_ball_index_stamp.2 (initialMatch 7 9 2) ballLegal0 (initialInnings 7 9)
    { status := MatchStatus.live, overs := 2, currentInnings := 1,
      innings := [{ battingTeam := 7, bowlingTeam := 9, runs := 0, wickets := 0,
                    overs := oversDisplay 1, balls := 1,
                    extras := { wides := 0, noBalls := 0, byes := 0, legByes := 0 },
                    isCompleted := false }],
      result := emptyResult }
    { innings := 1, over := 0, ball := 2, input := ballLegal0 } rfl rfl

/-- C7: the computed ball-in-over value always lies in `[1, 6]`, so the
defensive `ball == 7` branch is unreachable (the guarded and unguarded
calculators agree), and every persisted ball event has `1 ≤ ball ≤ 6`. -/
theorem c7_ball_in_over_bounds :
    (∀ (b : Nat) (w nb : Bool),
        1 ≤ (calcBallIndex b w nb).2 ∧ (calcBallIndex b w nb).2 ≤ 6 ∧
        (b + (if w || nb then 0 else 1)) % 6 + 1 ≠ 7 ∧
        calcBallIndex b w nb = calcBallIndexNoGuard b w nb) ∧
    (∀ (m : Match) (input : BallInput) (m2 : Match) (ev : BallEvent),
        recordBall m input = Except.ok (m2, ev) →
        1 ≤ ev.ball ∧ ev.ball ≤ 6) := by
  have hb : ∀ (b : Nat) (w nb : Bool),
      1 ≤ (calcBallIndex b w nb).2 ∧ (calcBallIndex b w nb).2 ≤ 6 := by
    intro b w nb
    rw [calcBallIndex_eq_noGuard]
    have h : (b + (if w || nb then 0 else 1)) % 6 < 6 := Nat.mod_lt _ (by omega)
    dsimp only [calcBallIndexNoGuard]
    omega
  refine ⟨fun b w nb => ⟨(hb b w nb).1, (hb b w nb).2, ?_, calcBallIndex_eq_noGuard b w nb⟩,
          ?_⟩
  · have h : (b + (if w || nb then 0 else 1)) % 6 < 6 := Nat.mod_lt _ (by omega)
    omega
  · intro m input m2 ev h
    obtain ⟨-, inn0, -, -, -, hev, -⟩ := recordBall_ok_elim h
    subst hev
    exact hb inn0.balls input.isWide input.isNoBall

/-- Witness for C7 at a concrete recorded ball. -/
theorem c7_ball_in_over_bounds_witness :
    1 ≤ ({ innings := 1, over := 0, ball := 2, input := ballLegal0 } : BallEvent).ball ∧
    ({ innings := 1, over := 0, ball := 2, input := ballLegal0 } : BallEvent).ball ≤ 6 :=
  c7_ball_in_over_bounds.2 (initialMatch 7 9 2) ballLegal0
    { status := MatchStatus.live, overs := 2, currentInnings := 1,
      innings := [{ battingTeam := 7, bowlingTeam := 9, runs := 0, wickets := 0,
                    overs := oversDisplay 1, balls := 1,
                    extras := { wides := 0, noBalls := 0, byes := 0, legByes := 0 },
                    isCompleted := false }],
      result := emptyResult }
    { innings := 1, over := 0, ball := 2, input := ballLegal0 } rfl

/-- C4: for every recorded ball the accumulator updates are additive:
runs grow by `runs + (1 if wide) + (1 if no-ball)`, the wides/no-balls
counters by 1 when flagged, byes/leg-byes by the ball's runs when flagged,
and balls grows by 1 — with overs recomputed as
`floor(balls/6) + (balls%6)/10` — exactly when the ball is neither a wide
nor a no-ball. -/
theorem c4_accumulator_additive :
    ∀ (m : Match) (input : BallInput) (inn : Innings) (m2 : Match) (ev : BallEvent)
      (inn2 : Innings),
      jsGet m.innings ((m.currentInnings : Int) - 1) = some inn →
      recordBall m input = Except.ok (m2, ev) →
      m2.innings[m.currentInnings - 1]? = some inn2 →
      inn2.runs = inn.runs + input.runs + (if input.isWide then 1 else 0)
                    + (if input.isNoBall then 1 else 0) ∧
      inn2.extras.wides = inn.extras.wides + (if input.isWide then 1 else 0) ∧
      inn2.extras.noBalls = inn.extras.noBalls + (if input.isNoBall then 1 else 0) ∧
      inn2.extras.byes = inn.extras.byes + (if input.isBye then input.runs else 0) ∧
      inn2.extras.legByes = inn.extras.legByes + (if input.isLegBye then input.runs else 0) ∧
      (inn2.balls = inn.balls + 1 ↔ ¬(input.isWide = true ∨ input.isNoBall = true)) ∧
      (¬(input.isWide = true ∨ input.isNoBall = true) →
         inn2.overs = (((inn.balls + 1) / 6 : Nat) : Rat)
                        + (((inn.balls + 1) % 6 : Nat) : Rat) / 10) := by
  intro m input inn m2 ev inn2 hj h hinn2
  obtain ⟨hruns, hwick, hballs, hovers, hextras, -, -⟩ :=
    recordBall_current_fields h hj hinn2
  have hor : (input.isWide || input.isNoBall) = true ↔
      (input.isWide = true ∨ input.isNoBall = true) := by
    simp
  refine ⟨?_, ?_, ?_, ?_, ?_, ?_, ?_⟩
  · rw [hruns, applyBall_runs]
  · rw [hextras, applyBall_extras]
  · rw [hextras, applyBall_extras]
  · rw [hextras, applyBall_extras]
  · rw [hextras, applyBall_extras]
  · rw [hballs, applyBall_balls]
    by_cases hw : input.isWide = true ∨ input.isNoBall = true
    · rw [if_pos (hor.mpr hw)]
      constructor
      · intro hfalse
        omega
      · intro hfalse
        exact absurd hw hfalse
    · rw [if_neg (fun hx => hw (hor.mp hx))]
      exact ⟨fun _ => hw, fun _ => rfl⟩
  · intro hlegal
    rw [hovers, applyBall_overs, if_neg (fun hx => hlegal (hor.mp hx)),
        oversDisplay_eq_formula]

/-- Witness for C4 at a concrete recorded ball: a two-run bye adds two to
runs and two to the byes counter, and advances the ball count. -/
theorem c4_accumulator_additive_witness :
    ({ battingTeam := 7, bowlingTeam := 9, runs := 2, wickets := 0,
       overs := oversDisplay 1, balls := 1,
       extras := { wides := 0, noBalls := 0, byes := 2, legByes := 0 },
       isCompleted := false } : Innings).runs = 2 ∧
    ({ battingTeam := 7, bowlingTeam := 9, runs := 2, wickets := 0,
       overs := oversDisplay 1, balls := 1,
       extras := { wides := 0, noBalls := 0, byes := 2, legByes := 0 },
       isCompleted := false } : Innings).extras.byes = 2 :=
  have h := c4_accumulator_additive (initialMatch 7 9 2) ballBye2 (initialInnings 7 9)
    { status := MatchStatus.live, overs := 2, currentInnings := 1,
      innings := [{ battingTeam := 7, bowlingTeam := 9, runs := 2, wickets := 0,
                    overs := oversDisplay 1, balls := 1,
                    extras := { wides := 0, noBalls := 0, byes := 2, legByes := 0 },
                    isCompleted := false }],
      result := emptyResult }
    { innings := 1, over := 0, ball := 2, input := ballBye2 }
    { battingTeam := 7, bowlingTeam := 9, runs := 2, wickets := 0,
      overs := oversDisplay 1, balls := 1,
      extras := { wides := 0, noBalls := 0, byes := 2, legByes := 0 },
      isCompleted := false } rfl rfl rfl
  ⟨h.1, h.2.2.2.1⟩

/-- Counterexample to C5: a wide on which one run was taken (runs = 1)
increases `innings.runs` by 2, not by exactly 1. -/
theorem c5_counterexample :
    recordBall (initialMatch 7 9 2) ballWide1 =
      Except.ok ({ status := MatchStatus.live, overs := 2, currentInnings := 1,
                   innings := [{ battingTeam := 7, bowlingTeam := 9, runs := 2,
                                 wickets := 0, overs := 0, balls := 0,
                                 extras := { wides := 1, noBalls := 0, byes := 0,
                                             legByes := 0 },
                                 isCompleted := false }],
                   result := emptyResult },
                 { innings := 1, over := 0, ball := 1, input := ballWide1 }) ∧
    (initialMatch 7 9 2).innings[0]?.map Innings.runs = some 0 ∧
    ballWide1.isWide = true ∧ ballWide1.runs = 1 ∧ (2 : Nat) ≠ 0 + 1 :=
  ⟨rfl, rfl, rfl, rfl, by decide⟩

/-- C5 as amended: for a ball with `isWide` or `isNoBall` set, balls and
overs are unchanged and the matching extras counter grows by exactly 1,
but `innings.runs` grows by `runs` plus 1 per illegal-delivery flag set —
exactly 1 only when `runs = 0`. -/
theorem c5_illegal_delivery_effects :
    ∀ (m : Match) (input : BallInput) (inn : Innings) (m2 : Match) (ev : BallEvent)
      (inn2 : Innings),
      jsGet m.innings ((m.currentInnings : Int) - 1) = some inn →
      recordBall m input = Except.ok (m2, ev) →
      m2.innings[m.currentInnings - 1]? = some inn2 →
      (input.isWide = true ∨ input.isNoBall = true) →
      inn2.balls = inn.balls ∧ inn2.overs = inn.overs ∧
      inn2.runs = inn.runs + input.runs + (if input.isWide then 1 else 0)
                    + (if input.isNoBall then 1 else 0) ∧
      (input.isWide = true → inn2.extras.wides = inn.extras.wides + 1) ∧
      (input.isNoBall = true → inn2.extras.noBalls = inn.extras.noBalls + 1) := by
  intro m input inn m2 ev inn2 hj h hinn2 hill
  obtain ⟨hruns, hwick, hballs, hovers, hextras, -, -⟩ :=
    recordBall_current_fields h hj hinn2
  have hor : (input.isWide || input.isNoBall) = true := by
    rcases hill with hw | hn
    · simp [hw]
    · simp [hn]
  refine ⟨?_, ?_, ?_, ?_, ?_⟩
  · rw [hballs, applyBall_balls, if_pos hor]
  · rw [hovers, applyBall_overs, if_pos hor]
  · rw [hruns, applyBall_runs]
  · intro hw
    rw [hextras, applyBall_extras]
    simp [hw]
  · intro hn
    rw [hextras, applyBall_extras]
    simp [hn]

/-- Witness for the amended C5 at a concrete ball: the one-run wide leaves
the ball count unchanged and grows runs by two. -/
theorem c5_illegal_delivery_effects_witness :
    ({ battingTeam := 7, bowlingTeam := 9, runs := 2, wickets := 0,
       overs := 0, balls := 0,
       extras := { wides := 1, noBalls := 0, byes := 0, legByes := 0 },
       isCompleted := false } : Innings).balls = 0 ∧
    ({ battingTeam := 7, bowlingTeam := 9, runs := 2, wickets := 0,
       overs := 0, balls := 0,
       extras := { wides := 1, noBalls := 0, byes := 0, legByes := 0 },
       isCompleted := false } : Innings).runs = 2 :=
  have h := c5_illegal_delivery_effects (initialMatch 7 9 2) ballWide1
    (initialInnings 7 9)
    { status := MatchStatus.live, overs := 2, currentInnings := 1,
      innings := [{ battingTeam := 7, bowlingTeam := 9, runs := 2, wickets := 0,
                    overs := 0, balls := 0,
                    extras := { wides := 1, noBalls := 0, byes := 0, legByes := 0 },
                    isCompleted := false }],
      result := emptyResult }
    { innings := 1, over := 0, ball := 1, input := ballWide1 }
    { battingTeam := 7, bowlingTeam := 9, runs := 2, wickets := 0,
      overs := 0, balls := 0,
      extras := { wides := 1, noBalls := 0, byes := 0, legByes := 0 },
      isCompleted := false } rfl rfl rfl (Or.inl rfl)
  ⟨h.1, h.2.2.1⟩

/-- C1: after the accumulator update, if `floor(balls/6) >= match.overs` or
`wickets >= 10` the current innings is marked completed; on first-innings
completion a zeroed second innings with swapped teams is appended,
`currentInnings` becomes 2 and the match stays live; on second-innings
completion the result calculator runs and the match status becomes
completed. -/
theorem c1_completion_transitions :
    ∀ (m : Match) (input : BallInput) (inn : Innings) (m2 : Match) (ev : BallEvent),
      jsGet m.innings ((m.currentInnings : Int) - 1) = some inn →
      recordBall m input = Except.ok (m2, ev) →
      ((applyBall inn input).balls / 6 ≥ m.overs ∨ (applyBall inn input).wickets ≥ 10) →
      m2.innings[m.currentInnings - 1]? =
          some { applyBall inn input with isCompleted := true } ∧
      (m.currentInnings = 1 →
         m2.currentInnings = 2 ∧ m2.status = MatchStatus.live ∧
         m2.innings = m.innings.set 0 { applyBall inn input with isCompleted := true }
           ++ [{ battingTeam := inn.bowlingTeam, bowlingTeam := inn.battingTeam,
                 runs := 0, wickets := 0, overs := 0, balls := 0,
                 extras := { wides := 0, noBalls := 0, byes := 0, legByes := 0 },
                 isCompleted := false }]) ∧
      (m.currentInnings = 2 →
         m2.status = MatchStatus.completed ∧
         ∀ fi, m.innings[0]? = some fi →
           m2.result = computeResult m.result fi
             { applyBall inn input with isCompleted := true }) := by
  intro m input inn m2 ev hj h hc
  have hcur := recordBall_current h hj
  rw [if_pos hc] at hcur
  obtain ⟨hs, inn0, hj0, hcmp, hrb, hev, hf⟩ := recordBall_ok_elim h
  rw [hj0] at hj
  cases hj
  refine ⟨hcur, ?_, ?_⟩
  · intro h1
    rcases finishStep_ok_cases hf with ⟨hc2, rfl⟩ | ⟨-, -, rfl⟩ | ⟨-, h2, -⟩
    · exact absurd hc hc2
    · refine ⟨rfl, hs ▸ rfl, ?_⟩
      rw [h1]
      have hteams : freshSecondInnings { applyBall inn input with isCompleted := true } =
          { battingTeam := inn.bowlingTeam, bowlingTeam := inn.battingTeam,
            runs := 0, wickets := 0, overs := 0, balls := 0,
            extras := { wides := 0, noBalls := 0, byes := 0, legByes := 0 },
            isCompleted := false } := by
        unfold freshSecondInnings
        rw [show ({ applyBall inn input with isCompleted := true } : Innings).bowlingTeam
              = inn.bowlingTeam from applyBall_bowlingTeam inn input,
            show ({ applyBall inn input with isCompleted := true } : Innings).battingTeam
              = inn.battingTeam from applyBall_battingTeam inn input]
      rw [hteams]
    · exact absurd h1 h2
  · intro h2
    rcases finishStep_ok_cases hf with ⟨hc2, rfl⟩ | ⟨-, h1, -⟩ | ⟨-, -, fi, si, hfi, hsi, rfl⟩
    · exact absurd hc hc2
    · rw [h2] at h1
      cases h1
    · refine ⟨rfl, ?_⟩
      intro fi0 hfi0
      have hlen : m.currentInnings - 1 < m.innings.length := recordBall_length_pos h
      have hfi' : fi = fi0 := by
        rw [jsGet_nonneg (by omega)] at hfi
        rw [show ((0 : Int).toNat) = 0 from rfl] at hfi
        rw [List.getElem?_set_ne (by omega)] at hfi
        rw [hfi0] at hfi
        exact (Option.some.inj hfi).symm
      have hsi' : si = { applyBall inn input with isCompleted := true } := by
        rw [jsGet_nonneg (by omega)] at hsi
        rw [show ((1 : Int).toNat) = 1 from rfl] at hsi
        rw [h2] at hsi
        rw [List.getElem?_set_eq_of_lt _ (by rw [h2] at hlen; exact hlen)] at hsi
        exact (Option.some.inj hsi).symm
      rw [hfi', hsi']

/-- Witness for C1 at a concrete ball that completes the first innings of a
0-over match: the second innings is bootstrapped and the match stays live. -/
theorem c1_completion_transitions_witness :
    m1over0.innings[0]? = some inn1Done ∧
    m1over0.currentInnings = 2 ∧ m1over0.status = MatchStatus.live :=
  have h := c1_completion_transitions (initialMatch 7 9 0) ballLegal1
    (initialInnings 7 9) m1over0
    { innings := 1, over := 0, ball := 2, input := ballLegal1 }
    rfl rfl (Or.inl (Nat.zero_le _))
  ⟨h.1, (h.2.1 rfl).1, (h.2.1 rfl).2.1⟩

/-- C2: when the second innings completes, the match result is the pure
function of the two final run totals and the second innings' wicket count:
more runs for the chasing side gives a wickets win with margin
`10 - wickets`, fewer gives a runs win by the difference, equal totals give
a tie with no winner. -/
theorem c2_result_pure_function :
    ∀ (m : Match) (input : BallInput) (m2 : Match) (ev : BallEvent) (fi si : Innings),
      Reachable m → recordBall m input = Except.ok (m2, ev) →
      m2.status = MatchStatus.completed →
      m2.innings[0]? = some fi → m2.innings[1]? = some si →
      (si.runs > fi.runs →
        m2.result = { winner := some si.battingTeam,
                      resultType := some ResultType.wickets,
                      margin := some (wicketsMargin si.wickets) }) ∧
      (fi.runs > si.runs →
        m2.result = { winner := some fi.battingTeam,
                      resultType := some ResultType.runs,
                      margin := some (runsMargin fi.runs si.runs) }) ∧
      (fi.runs = si.runs →
        m2.result = { winner := none, resultType := some ResultType.tie,
                      margin := some "Match tied" }) := by
  intro m input m2 ev fi si hr h hst hfi hsi
  have hres := recordBall_completed_result hr h hst hfi hsi
  refine ⟨?_, ?_, ?_⟩
  · intro hgt
    rw [hres]
    unfold computeResult
    rw [if_pos hgt]
  · intro hgt
    rw [hres]
    unfold computeResult
    rw [if_neg (by omega), if_pos hgt]
  · intro heq
    rw [hres]
    unfold computeResult
    rw [if_neg (by omega), if_neg (by omega)]
    rfl

/-- Witness for C2 on a completed 0-over match: team 7 defends 1 run, so
the result is a runs win by 1 for team 7. -/
theorem c2_result_pure_function_witness :
    m2over0.result = { winner := some 7, resultType := some ResultType.runs,
                       margin := some (runsMargin 1 0) } :=
  have hr1 : Reachable m1over0 :=
    Reachable.step (Reachable.start 7 9 0)
      (show recordBall (initialMatch 7 9 0) ballLegal1 =
          Except.ok (m1over0, { innings := 1, over := 0, ball := 2, input := ballLegal1 })
        from rfl)
  (c2_result_pure_function m1over0 ballLegal0 m2over0
      { innings := 2, over := 0, ball := 2, input := ballLegal0 }
      inn1Done inn2Done0 hr1 rfl rfl rfl rfl).2.1 (by decide)

/-- Counterexample to C3: in a 20-over match whose first innings finished
on 100, the ball that takes the chase to 101 with 3 wickets down and overs
to spare leaves the match live with no result at all — the handler never
compares the running total against the target, so no result is produced
at that point. -/
theorem c3_counterexample :
    recordBall c3Match ballLegal6 =
      Except.ok (c3Post, { innings := 2, over := 5, ball := 2, input := ballLegal6 }) ∧
    c3Post.innings[0]?.map Innings.runs = some 100 ∧
    c3Post.innings[1]?.map Innings.runs = some 101 ∧
    c3Post.innings[1]?.map Innings.wickets = some 3 ∧
    c3Post.innings[1]?.map Innings.isCompleted = some false ∧
    c3Post.status = MatchStatus.live ∧
    c3Post.result.resultType = none ∧
    c3Post.result ≠ { winner := some 9, resultType := some ResultType.wickets,
                      margin := some (wicketsMargin 3) } :=
  ⟨rfl, rfl, rfl, rfl, rfl, rfl, rfl,
   fun hx => Option.noConfusion (congrArg MatchResult.resultType hx)⟩

/-- C3 as amended: passing the target does not by itself produce a result —
while the match is still live the result stays unset — and the
`{wickets, 10 - wickets, second batting team}` result is produced only by
the ball that completes the second innings (overs exhausted or ten
wickets), with the wicket count taken at completion. -/
theorem c3_chase_result_at_completion :
    ∀ (m : Match) (input : BallInput) (m2 : Match) (ev : BallEvent),
      Reachable m → recordBall m input = Except.ok (m2, ev) →
      (m2.status = MatchStatus.live → m2.result.resultType = none) ∧
      (∀ fi si, m2.status = MatchStatus.completed →
         m2.innings[0]? = some fi → fi.runs = 100 →
         m2.innings[1]? = some si → 101 ≤ si.runs →
         m2.result = { winner := some si.battingTeam,
                       resultType := some ResultType.wickets,
                       margin := some (wicketsMargin si.wickets) }) := by
  intro m input m2 ev hr h
  constructor
  · intro hlive
    have hres : m2.result = emptyResult :=
      (reachable_matchInv (Reachable.step hr h)).2 hlive
    rw [hres]
    rfl
  · intro fi si hst hfi hfi100 hsi hsi101
    have hres := recordBall_completed_result hr h hst hfi hsi
    rw [hres]
    unfold computeResult
    rw [if_pos (by omega)]

/-- Witness for the amended C3: a reachable 1-over match whose first
innings closed on 100 is finished by a wide-and-run-out that takes the
chase to 101 all out; the recorded result is a ten-minus-ten "0 wickets"
win for the chasing team 9. -/
theorem c3_chase_result_at_completion_witness :
    c3Done.result = { winner := some 9, resultType := some ResultType.wickets,
                      margin := some (wicketsMargin 10) } :=
  have hr : Reachable c3Pre :=
    runBalls_reachable (Reachable.start 7 9 1)
      (show runBalls (initialMatch 7 9 1) c3BallList = Except.ok c3Pre from rfl)
  (c3_chase_result_at_completion c3Pre ballWideWicket6 c3Done
      { innings := 2, over := 0, ball := 1, input := ballWideWicket6 }
      hr rfl).2 c3PreFirst c3DoneSecond rfl rfl rfl rfl (by decide)

/-- C8: in every reachable match state each innings has at most ten
wickets, and an innings whose `isCompleted` flag is set is never mutated
by a later ball-recording call — such a call leaves the innings untouched
when it succeeds and is rejected outright when that innings is the
current one. -/
theorem c8_wickets_bound_and_completed_frozen :
    ∀ (m : Match), Reachable m →
      (∀ inn ∈ m.innings, inn.wickets ≤ 10) ∧
      (∀ (input : BallInput) (i : Nat) (inn : Innings),
         m.innings[i]? = some inn → inn.isCompleted = true →
         (∀ (m2 : Match) (ev : BallEvent),
            recordBall m input = Except.ok (m2, ev) → m2.innings[i]? = some inn) ∧
         (i = m.currentInnings - 1 → ∃ e, recordBall m input = Except.error e)) := by
  intro m hr
  constructor
  · intro inn hinn
    exact ((reachable_matchInv hr).1 inn hinn).1
  · intro input i inn hi hdone
    constructor
    · intro m2 ev h
      obtain ⟨hs, inn0, hj0, hcmp, -, -, -⟩ := recordBall_ok_elim h
      have hci : 1 ≤ m.currentInnings := by
        have := jsGet_some_pos hj0
        omega
      rw [jsGet_pred _ _ hci] at hj0
      have hne : i ≠ m.currentInnings - 1 := by
        intro hx
        rw [hx, hj0] at hi
        have heq := Option.some.inj hi
        rw [heq, hdone] at hcmp
        cases hcmp
      rw [recordBall_frame_other h hne (getElem?_some_lt hi)]
      exact hi
    · intro hcur
      by_cases hs : m.status = MatchStatus.live
      · refine ⟨ScoringError.currentInningsCompleted, ?_⟩
        unfold recordBall
        rw [if_neg (by simp [hs])]
        by_cases hci : 1 ≤ m.currentInnings
        · rw [jsGet_pred _ _ hci, ← hcur, hi]
          dsimp only
          rw [if_pos ?_]
          rw [hdone]
        · have hc0 : m.currentInnings = 0 := by omega
          have hneg : jsGet m.innings ((m.currentInnings : Int) - 1) = none := by
            unfold jsGet
            rw [hc0]
            rfl
          rw [hneg]
      · exact ⟨ScoringError.matchNotFoundOrNotLive, by
          unfold recordBall
          rw [if_pos (by simp [hs])]⟩

/-- Witness for C8: after the completed 0-over match's first ball, the
closed first innings is untouched by the second ball, and a further ball
against the finished second innings is rejected. -/
theorem c8_wickets_bound_and_completed_frozen_witness :
    m2over0.innings[0]? = some inn1Done ∧
    (∃ e, recordBall m2over0 ballLegal0 = Except.error e) :=
  have hr1 : Reachable m1over0 :=
    Reachable.step (Reachable.start 7 9 0)
      (show recordBall (initialMatch 7 9 0) ballLegal1 =
          Except.ok (m1over0, { innings := 1, over := 0, ball := 2, input := ballLegal1 })
        from rfl)
  have hr2 : Reachable m2over0 :=
    Reachable.step hr1
      (show recordBall m1over0 ballLegal0 =
          Except.ok (m2over0, { innings := 2, over := 0, ball := 2, input := ballLegal0 })
        from rfl)
  have hfrozen :=
    ((c8_wickets_bound_and_completed_frozen m1over0 hr1).2 ballLegal0 0 inn1Done
      rfl rfl).1 m2over0
      { innings := 2, over := 0, ball := 2, input := ballLegal0 } rfl
  have hreject :=
    ((c8_wickets_bound_and_completed_frozen m2over0 hr2).2 ballLegal0 1 inn2Done0
      rfl rfl).2 rfl
  ⟨hfrozen, hreject⟩

/-- Counterexample to C9: a missing match and an existing but not-live
match produce the identical error response (the single 400
"Match not found or not live" branch), so there is no NotFound error
distinct from the not-live InvalidState error. -/
theorem c9_counterexample :
    recordBallDb none ballLegal0 =
        Except.error ScoringError.matchNotFoundOrNotLive ∧
    recordBallDb (some scheduledMatch) ballLegal0 =
        Except.error ScoringError.matchNotFoundOrNotLive ∧
    recordBallDb (none : Option Match) ballLegal0 =
        recordBallDb (some scheduledMatch) ballLegal0 :=
  ⟨rfl, rfl, rfl⟩

/-- C9 as amended: recording fails with one shared error both when the
match is missing and when it is not live, and with a distinct error when
the current innings is already completed; in every such failure the
store — match document and ball log — is unchanged, since each error
return precedes both writes. (The last conjunct additionally covers the
other half of the source's `!currentInnings || isCompleted` guard: an
innings pointer that resolves to no innings fails with the same distinct
error, again without mutation.) -/
theorem c9_error_paths_no_mutation :
    ∀ (st : Store) (input : BallInput),
      (st.matchDoc = none →
         postBall st input = (st, Except.error ScoringError.matchNotFoundOrNotLive)) ∧
      (∀ m, st.matchDoc = some m → m.status ≠ MatchStatus.live →
         postBall st input = (st, Except.error ScoringError.matchNotFoundOrNotLive)) ∧
      (∀ m inn, st.matchDoc = some m → m.status = MatchStatus.live →
         jsGet m.innings ((m.currentInnings : Int) - 1) = some inn →
         inn.isCompleted = true →
         postBall st input = (st, Except.error ScoringError.currentInningsCompleted)) ∧
      (∀ m, st.matchDoc = some m → m.status = MatchStatus.live →
         jsGet m.innings ((m.currentInnings : Int) - 1) = none →
         postBall st input = (st, Except.error ScoringError.currentInningsCompleted)) := by
  intro st input
  refine ⟨?_, ?_, ?_, ?_⟩
  · intro hnone
    unfold postBall recordBallDb
    rw [hnone]
  · intro m hm hstatus
    unfold postBall recordBallDb
    rw [hm]
    dsimp only
    unfold recordBall
    rw [if_pos (by simp [hstatus])]
  · intro m inn hm hstatus hj hdone
    unfold postBall recordBallDb
    rw [hm]
    dsimp only
    unfold recordBall
    rw [if_neg (by simp [hstatus]), hj]
    dsimp only
    rw [if_pos hdone]
  · intro m hm hstatus hj
    unfold postBall recordBallDb
    rw [hm]
    dsimp only
    unfold recordBall
    rw [if_neg (by simp [hstatus]), hj]

/-- Witness for the amended C9 on the empty store: recording against no
match document leaves the store unchanged and reports the shared error. -/
theorem c9_error_paths_no_mutation_witness :
    postBall { matchDoc := none, balls := [] } ballLegal0 =
      ({ matchDoc := none, balls := [] },
       Except.error ScoringError.matchNotFoundOrNotLive) :=
  (c9_error_paths_no_mutation { matchDoc := none, balls := [] } ballLegal0).1 rfl

/-- C10: a successful ball that does not complete the current innings
changes only that innings' runs, wickets, balls, overs and extras: the
match status, innings pointer, result, over limit, both teams of the
current innings, and every other innings are unchanged, and no innings is
added or removed. -/
theorem c10_frame_no_completion :
    ∀ (m : Match) (input : BallInput) (inn : Innings) (m2 : Match) (ev : BallEvent)
      (inn2 : Innings),
      jsGet m.innings ((m.currentInnings : Int) - 1) = some inn →
      recordBall m input = Except.ok (m2, ev) →
      m2.innings[m.currentInnings - 1]? = some inn2 →
      inn2.isCompleted = false →
      m2.status = m.status ∧ m2.currentInnings = m.currentInnings ∧
      m2.result = m.result ∧ m2.overs = m.overs ∧
      m2.innings.length = m.innings.length ∧
      inn2.battingTeam = inn.battingTeam ∧ inn2.bowlingTeam = inn.bowlingTeam ∧
      (∀ j, j ≠ m.currentInnings - 1 → m2.innings[j]? = m.innings[j]?) := by
  intro m input inn m2 ev inn2 hj h hinn2 hflag
  obtain ⟨-, -, -, -, -, hteams1, hteams2⟩ := recordBall_current_fields h hj hinn2
  have hcur := recordBall_current h hj
  rw [hinn2] at hcur
  have heq := Option.some.inj hcur
  have hnc : ¬ ((applyBall inn input).balls / 6 ≥ m.overs ∨
      (applyBall inn input).wickets ≥ 10) := by
    intro hc
    rw [if_pos hc] at heq
    rw [heq] at hflag
    cases hflag
  obtain ⟨hs, inn0, hj0, hcmp, hrb, hev, hf⟩ := recordBall_ok_elim h
  rw [hj0] at hj
  cases hj
  rcases finishStep_ok_cases hf with ⟨-, rfl⟩ | ⟨hc, -, rfl⟩ | ⟨hc, -, fi, si, -, -, rfl⟩
  · refine ⟨rfl, rfl, rfl, rfl, List.length_set .., hteams1, hteams2, ?_⟩
    intro j hji
    exact List.getElem?_set_ne (fun hx => hji hx.symm)
  · exact absurd hc hnc
  · exact absurd hc hnc

/-- Witness for C10 at a concrete non-completing ball on a fresh 2-over
match: status, innings pointer and result are unchanged. -/
theorem c10_frame_no_completion_witness :
    ({ status := MatchStatus.live, overs := 2, currentInnings := 1,
       innings := [{ battingTeam := 7, bowlingTeam := 9, runs := 0, wickets := 0,
                     overs := oversDisplay 1, balls := 1,
                     extras := { wides := 0, noBalls := 0, byes := 0, legByes := 0 },
                     isCompleted := false }],
       result := emptyResult } : Match).status = MatchStatus.live ∧
    ({ status := MatchStatus.live, overs := 2, currentInnings := 1,
       innings := [{ battingTeam := 7, bowlingTeam := 9, runs := 0, wickets := 0,
                     overs := oversDisplay 1, balls := 1,
                     extras := { wides := 0, noBalls := 0, byes := 0, legByes := 0 },
                     isCompleted := false }],
       result := emptyResult } : Match).currentInnings = 1 :=
  have h := c10_frame_no_completion (initialMatch 7 9 2) ballLegal0
    (initialInnings 7 9)
    { status := MatchStatus.live, overs := 2, currentInnings := 1,
      innings := [{ battingTeam := 7, bowlingTeam := 9, runs := 0, wickets := 0,
                    overs := oversDisplay 1, balls := 1,
                    extras := { wides := 0, noBalls := 0, byes := 0, legByes := 0 },
                    isCompleted := false }],
      result := emptyResult }
    { innings := 1, over := 0, ball := 2, input := ballLegal0 }
    { battingTeam := 7, bowlingTeam := 9, runs := 0, wickets := 0,
      overs := oversDisplay 1, balls := 1,
      extras := { wides := 0, noBalls := 0, byes := 0, legByes := 0 },
      isCompleted := false } rfl rfl rfl rfl
  ⟨h.1, h.2.1⟩

end CricketScoring
